import Mathlib

/-!
Verification of the FloodVision flood-risk dashboard (`final6_app.py`).

The file shallowly embeds the prediction/presentation pipeline of the
source: feature-row construction, the damage pipeline (`np.expm1` followed
by the fixed USD→INR conversion), the Indian-locale amount formatter, the
risk-assessment tier selection, the model-loading fallback path of `main`,
and the map style selection of `create_interactive_map`.  Monetary amounts
and probabilities are modelled as exact rationals or reals; stateful
Streamlit rendering is modelled as the list of panels emitted in program
order.  String formatting of decimals (the `:.2f` rendering) is abstracted:
the formatter returns the chosen suffix together with the exact quotient it
would render.
-/

namespace FloodVision

/-- Source line 34-38: the fixed feature schema `NUM_FEATURES`. -/
def NUM_FEATURES : List String :=
  ["rainfall_mm", "rain_7d", "rain_30d",
   "elevation", "dist_to_river",
   "population_density", "impervious_frac", "land_cover_index"]

/-- Source line 41: `RISK_COLORS`, the tier → hex color dictionary. -/
def RISK_COLORS : List (String × String) :=
  [("Low", "#28a745"), ("Medium", "#ffc107"), ("High", "#dc3545")]

/-- Source line 44: `USD_TO_INR = 83.0`, the fixed conversion rate. -/
def USD_TO_INR : ℚ := 83

/-- Source lines 204-206: `convert_usd_to_inr(usd_amount)` returns
`usd_amount * USD_TO_INR`.  Generic over the ordered field used for
amounts so the same definition serves exact rational inputs and the real
damage pipeline. -/
def convert_usd_to_inr {α : Type} [LinearOrderedField α] (usd_amount : α) : α :=
  usd_amount * (USD_TO_INR : α)

/-- The outcome of `format_rupees`: which magnitude suffix is chosen and the
exact quantity that the f-string would render next to it (`amount/10000000`
for crore, `amount/100000` for lakh, the raw amount for the plain grouped
form).  The final `:.2f` / `:,.0f` decimal rendering is string formatting
and is abstracted away. -/
inductive RupeeFormat (α : Type) where
  | crore (value : α)
  | lakh (value : α)
  | plain (value : α)
deriving DecidableEq

/-- Source lines 208-215: `format_rupees(amount)` branches on
`amount >= 10000000` (crore), then `amount >= 100000` (lakh), else plain. -/
def format_rupees {α : Type} [LinearOrderedField α] (amount : α) : RupeeFormat α :=
  if amount ≥ 10000000 then RupeeFormat.crore (amount / 10000000)
  else if amount ≥ 100000 then RupeeFormat.lakh (amount / 100000)
  else RupeeFormat.plain amount

/-- Source line 496: `np.expm1(pred_log)`, the inverse of `log1p`. -/
noncomputable def expm1 (y : ℝ) : ℝ := Real.exp y - 1

/-- Source line 496: `pred_damage_usd = float(np.expm1(pred_log))`. -/
noncomputable def pred_damage_usd (pred_log : ℝ) : ℝ := expm1 pred_log

/-- Source line 497: `pred_damage_inr = convert_usd_to_inr(pred_damage_usd)`. -/
noncomputable def pred_damage_inr (pred_log : ℝ) : ℝ :=
  convert_usd_to_inr (pred_damage_usd pred_log)

/-- Source lines 523-545: the risk-assessment block of `main`.  The
`st.error` branch (CRITICAL ALERT - HIGH FLOOD RISK) is tier "High", the
`st.warning` branch (MEDIUM RISK) is tier "Medium", and the `st.success`
branch (LOW RISK) is tier "Low".  `p_high` is `probas[2]`, the predicted
probability of the High class. -/
def risk_assessment (pred_label : String) (p_high : ℚ) : String :=
  if pred_label = "High" ∨ p_high > 6/10 then "High"
  else if pred_label = "Medium" ∨ p_high > 3/10 then "Medium"
  else "Low"

/-- Severity rank of a tier label, used to state escalation monotonicity:
High = 2, Medium = 1, anything else = 0. -/
def tierSeverity (tier : String) : ℕ :=
  if tier = "High" then 2 else if tier = "Medium" then 1 else 0

/-- The tier demanded by the discrete class alone (the first disjunct of
each condition in lines 523-545). -/
def classTier (pred_label : String) : String :=
  if pred_label = "High" then "High"
  else if pred_label = "Medium" then "Medium"
  else "Low"

/-- The tier demanded by the High-class probability alone (the second
disjunct of each condition in lines 523-545). -/
def probTier (p_high : ℚ) : String :=
  if p_high > 6/10 then "High" else if p_high > 3/10 then "Medium" else "Low"

/-- Source line 487: `X_input = pd.DataFrame([features], columns=NUM_FEATURES)`.
The row is reindexed to the `NUM_FEATURES` columns: a key present in
`features` contributes its value, a missing key yields `NaN` (modelled as
`none`).  No value is inspected or rejected. -/
def X_input (features : List (String × ℚ)) : List (String × Option ℚ) :=
  NUM_FEATURES.map fun c => (c, (features.find? fun p => p.1 == c).map fun p => p.2)

/-- The sample raw inputs of the end-to-end scenario, except that
`impervious_frac` is set to the out-of-range value 1.5. -/
def badImperviousRaw : List (String × ℚ) :=
  [("rainfall_mm", 15), ("rain_7d", 65), ("rain_30d", 180),
   ("elevation", 250), ("dist_to_river", 3/2),
   ("population_density", 1200), ("impervious_frac", 3/2),
   ("land_cover_index", 3/5)]

/-- The sample raw inputs with the `elevation` field absent. -/
def noElevationRaw : List (String × ℚ) :=
  [("rainfall_mm", 15), ("rain_7d", 65), ("rain_30d", 180),
   ("dist_to_river", 3/2),
   ("population_density", 1200), ("impervious_frac", 2/5),
   ("land_cover_index", 3/5)]

/-- A Streamlit panel emitted by `main` / `load_models`, in program order.
Only the panels relevant to the model-load fallback path are distinguished. -/
inductive Panel where
  | loadSuccess
  | loadError (msg : String)
  | installHint
  | installInstructions
  | predictionSidebar
  | emergencyContacts
  | safetyGuidelines
  | emergencyKit
  | affectedGuidelines
  | helpOthers
  | donationSection
  | awarenessFacts
  | howToUse
deriving DecidableEq

/-- Source lines 48-81: `load_models` tries to `joblib.load` both model
artifacts.  On success it emits a success panel and returns both models; on
any exception it emits `st.error(f"Model loading failed: {e}")` followed by
an installation hint (`st.info`) and returns `(None, None)`.  The load
attempt itself is modelled as an `Except` value: `.error msg` stands for a
raised exception with message `msg`. -/
def load_models (attempt : Except String (Unit × Unit)) :
    (Option Unit × Option Unit) × List Panel :=
  match attempt with
  | Except.ok (clf, reg) => ((some clf, some reg), [Panel.loadSuccess])
  | Except.error msg => ((none, none), [Panel.loadError msg, Panel.installHint])

/-- Source lines 584-592 (also 400-407): the static reference/safety
sections, rendered in program order on both the failure path and the
success path of `main`. -/
def staticPanels : List Panel :=
  [Panel.emergencyContacts, Panel.safetyGuidelines, Panel.emergencyKit,
   Panel.affectedGuidelines, Panel.helpOthers, Panel.donationSection,
   Panel.awarenessFacts]

/-- Source lines 384-607: the panel sequence rendered by `main`.  When
either model is `None` (load failed), `main` shows the installation
instructions and the static sections, then returns (lines 387-408);
otherwise it renders the prediction sidebar, the same static sections, and
the how-to-use note (lines 410-607). -/
def main_panels (attempt : Except String (Unit × Unit)) : List Panel :=
  match load_models attempt with
  | ((some _, some _), out) =>
      out ++ [Panel.predictionSidebar] ++ staticPanels ++ [Panel.howToUse]
  | ((_, _), out) =>
      out ++ [Panel.installInstructions] ++ staticPanels

/-- The style produced by the map renderer: marker icon color, circle
radius in metres, the risk color interpolated into the marker popup, and
the circle color. -/
structure MapSpec where
  iconColor : String
  riskRadius : ℕ
  popupRiskColor : String
  circleColor : String
deriving DecidableEq

/-- Source lines 92-100: the marker color / circle radius selection inside
`create_interactive_map`: High → ("red", 3000), Medium → ("orange", 2000),
anything else → ("green", 1000). -/
def marker_style (risk_level : String) : String × ℕ :=
  if risk_level = "High" then ("red", 3000)
  else if risk_level = "Medium" then ("orange", 2000)
  else ("green", 1000)

/-- The dictionary lookup `RISK_COLORS[risk_level]` (source lines 110 and
127).  A key absent from the dictionary raises `KeyError`, modelled as
`none`. -/
def riskColorLookup (risk_level : String) : Option String :=
  (RISK_COLORS.find? fun p => p.1 == risk_level).map fun p => p.2

/-- Source lines 83-133: `create_interactive_map` selects the marker style
(lines 92-100), then builds the marker popup and the circle, both of which
evaluate `RISK_COLORS[risk_level]` (lines 110 and 127).  A `risk_level`
missing from `RISK_COLORS` raises `KeyError` before anything is rendered,
modelled as `none`. -/
def create_interactive_map (risk_level : String) : Option MapSpec :=
  let style := marker_style risk_level
  match riskColorLookup risk_level with
  | none => none
  | some c => some ⟨style.1, style.2, c, c⟩

/-- C1: the risk-assessment tier follows the stated precedence: if the
predicted class is "High" or P(High) > 0.6 the tier is "High"; otherwise if
the predicted class is "Medium" or P(High) > 0.3 the tier is "Medium";
otherwise the tier is "Low". -/
theorem risk_tier_precedence (label : String) (p : ℚ) :
    ((label = "High" ∨ p > 6/10) → risk_assessment label p = "High") ∧
    (label ≠ "High" → ¬ p > 6/10 → (label = "Medium" ∨ p > 3/10) →
      risk_assessment label p = "Medium") ∧
    (label ≠ "High" → label ≠ "Medium" → ¬ p > 3/10 →
      risk_assessment label p = "Low") := by
  unfold risk_assessment
  refine ⟨fun h => if_pos h, fun h1 h2 h3 => ?_, fun h1 h2 h3 => ?_⟩
  · rw [if_neg (by tauto), if_pos h3]
  · rw [if_neg ?_, if_neg (by tauto)]
    rintro (h | h)
    · exact h1 h
    · exact h3 (by linarith)

/-- Witness for C1: with predicted class "Low", P(High) = 0.65 escalates to
"High", P(High) = 0.45 escalates to "Medium", and P(High) = 0.2 stays
"Low". -/
theorem risk_tier_precedence_witness :
    risk_assessment "Low" (13/20) = "High" ∧
    risk_assessment "Low" (9/20) = "Medium" ∧
    risk_assessment "Low" (1/5) = "Low" :=
  ⟨(risk_tier_precedence "Low" (13/20)).1 (Or.inr (by norm_num)),
   (risk_tier_precedence "Low" (9/20)).2.1 (by decide) (by norm_num)
     (Or.inr (by norm_num)),
   (risk_tier_precedence "Low" (1/5)).2.2 (by decide) (by decide)
     (by norm_num)⟩

/-- Helper for C4: the selected tier is exactly the more severe of the two
candidate tiers (the tier demanded by the discrete class and the tier
demanded by the High-class probability). -/
theorem risk_assessment_eq_max (label : String) (p : ℚ) :
    tierSeverity (risk_assessment label p) =
      max (tierSeverity (classTier label)) (tierSeverity (probTier p)) := by
  unfold risk_assessment classTier probTier tierSeverity
  by_cases hH : label = "High" <;> by_cases hM : label = "Medium" <;>
    by_cases h6 : p > 6/10 <;> by_cases h3 : p > 3/10 <;>
    simp [hH, hM, h6, h3]

/-- Helper for C4: for a fixed predicted class, the tier severity is
monotone in the High-class probability. -/
theorem risk_assessment_mono (label : String) (p q : ℚ) (hpq : p ≤ q) :
    tierSeverity (risk_assessment label p) ≤
      tierSeverity (risk_assessment label q) := by
  rw [risk_assessment_eq_max, risk_assessment_eq_max]
  refine max_le_max le_rfl ?_
  unfold probTier tierSeverity
  by_cases h6p : p > 6/10 <;> by_cases h3p : p > 3/10 <;>
    by_cases h6q : q > 6/10 <;> by_cases h3q : q > 3/10 <;>
    simp [h6p, h3p, h6q, h3q] <;> linarith

/-- C4: tier selection is monotone in the High-class probability for a
fixed predicted class; the selected tier is always the more severe of the
two candidate tiers (class-demanded and probability-demanded); and with
fixed class "Low" the tier moves Low → Medium → High as P(High) rises
through 0.2, 0.45, 0.65. -/
theorem tier_escalation_monotone :
    (∀ (label : String) (p q : ℚ), p ≤ q →
      tierSeverity (risk_assessment label p) ≤
        tierSeverity (risk_assessment label q)) ∧
    (∀ (label : String) (p : ℚ),
      tierSeverity (risk_assessment label p) =
        max (tierSeverity (classTier label)) (tierSeverity (probTier p))) ∧
    risk_assessment "Low" (1/5) = "Low" ∧
    risk_assessment "Low" (9/20) = "Medium" ∧
    risk_assessment "Low" (13/20) = "High" :=
  ⟨risk_assessment_mono, risk_assessment_eq_max,
   by simp [risk_assessment] <;> norm_num,
   by simp [risk_assessment] <;> norm_num,
   by simp [risk_assessment] <;> norm_num⟩

/-- Witness for C4: with fixed class "Low", raising P(High) from 0.2 to
0.65 never lowers the tier severity. -/
theorem tier_escalation_monotone_witness :
    tierSeverity (risk_assessment "Low" (1/5)) ≤
      tierSeverity (risk_assessment "Low" (13/20)) :=
  tier_escalation_monotone.1 "Low" (1/5) (13/20) (by norm_num)

/-- C3: the formatter picks "crore" with quotient amount/10000000 exactly
when amount ≥ 10000000, otherwise "lakh" with quotient amount/100000 when
amount ≥ 100000, otherwise the plain grouped form; the boundary values
10000000 and 100000 take the larger-unit suffix, 9999999 formats as lakh,
and 50000 formats plain. -/
theorem format_rupees_thresholds :
    (∀ a : ℚ,
      (a ≥ 10000000 → format_rupees a = RupeeFormat.crore (a / 10000000)) ∧
      (¬ a ≥ 10000000 → a ≥ 100000 →
        format_rupees a = RupeeFormat.lakh (a / 100000)) ∧
      (¬ a ≥ 100000 → format_rupees a = RupeeFormat.plain a)) ∧
    format_rupees (10000000 : ℚ) = RupeeFormat.crore 1 ∧
    format_rupees (100000 : ℚ) = RupeeFormat.lakh 1 ∧
    format_rupees (9999999 : ℚ) = RupeeFormat.lakh (9999999 / 100000) ∧
    format_rupees (50000 : ℚ) = RupeeFormat.plain 50000 := by
  refine ⟨fun a => ⟨fun h => if_pos h, fun h1 h2 => ?_, fun h2 => ?_⟩,
    by simp [format_rupees] <;> norm_num, by simp [format_rupees] <;> norm_num,
    by simp [format_rupees] <;> norm_num, by simp [format_rupees] <;> norm_num⟩
  · unfold format_rupees
    rw [if_neg h1, if_pos h2]
  · unfold format_rupees
    rw [if_neg (fun h => h2 (le_trans (by norm_num) h)), if_neg h2]

/-- Witness for C3: 20000000 formats as 2 crore. -/
theorem format_rupees_thresholds_witness :
    format_rupees (20000000 : ℚ) = RupeeFormat.crore (20000000 / 10000000) :=
  (format_rupees_thresholds.1 20000000).1 (by norm_num)

/-- C8: conversion to the display currency at the fixed rate 83.0 is
additive (linear). -/
theorem convert_usd_to_inr_linear (a b : ℝ) :
    convert_usd_to_inr (a + b) = convert_usd_to_inr a + convert_usd_to_inr b := by
  unfold convert_usd_to_inr
  ring

/-- Witness for C8: linearity instantiated at the concrete amounts 2 and 3. -/
theorem convert_usd_to_inr_linear_witness :
    convert_usd_to_inr ((2 : ℝ) + 3) =
      convert_usd_to_inr (2 : ℝ) + convert_usd_to_inr (3 : ℝ) :=
  convert_usd_to_inr_linear 2 3

/-- Helper for C2: the power of e at 9.2 is bounded below by 2824 (via
2.7^8 < e^8 ≤ e^9.2). -/
theorem exp_92_lower : (2824 : ℝ) < Real.exp 9.2 := by
  have e27 : (2.7 : ℝ) < Real.exp 1 := lt_trans (by norm_num) Real.exp_one_gt_d9
  have h1 : (2.7 : ℝ) ^ 8 < Real.exp 1 ^ 8 :=
    pow_lt_pow_left₀ e27 (by norm_num) (by norm_num)
  have h2 : Real.exp 1 ^ 8 = Real.exp 8 := by
    rw [← Real.exp_nat_mul]
    norm_num
  have h3 : Real.exp 8 ≤ Real.exp 9.2 := Real.exp_le_exp.mpr (by norm_num)
  nlinarith [h1, h2, h3]

/-- Helper for C2: the power of e at 9.2 is bounded above by 22167 (via
e^9.2 ≤ e^10 < 2.72^10). -/
theorem exp_92_upper : Real.exp 9.2 < 22167 := by
  have e272 : Real.exp 1 < 2.72 := lt_trans Real.exp_one_lt_d9 (by norm_num)
  have h1 : Real.exp 1 ^ 10 < (2.72 : ℝ) ^ 10 :=
    pow_lt_pow_left₀ e272 (le_of_lt (Real.exp_pos 1)) (by norm_num)
  have h2 : Real.exp 1 ^ 10 = Real.exp 10 := by
    rw [← Real.exp_nat_mul]
    norm_num
  have h3 : Real.exp 9.2 ≤ Real.exp 10 := Real.exp_le_exp.mpr (by norm_num)
  nlinarith [h1, h2, h3]

/-- C2: the displayed damage is `expm1(r) * 83.0` for every raw regressor
output `r`, and at the scenario output `r = 9.2` the amount lands in the
lakh range, so the formatter renders it with the "lakh" suffix showing the
amount divided by 100000. -/
theorem damage_pipeline_correct :
    (∀ r : ℝ, pred_damage_inr r = expm1 r * 83) ∧
    format_rupees (pred_damage_inr 9.2) =
      RupeeFormat.lakh (pred_damage_inr 9.2 / 100000) := by
  have hval : ∀ r : ℝ, pred_damage_inr r = expm1 r * 83 := by
    intro r
    unfold pred_damage_inr pred_damage_usd convert_usd_to_inr USD_TO_INR
    norm_num
  refine ⟨hval, ?_⟩
  have hexp : pred_damage_inr 9.2 = (Real.exp 9.2 - 1) * 83 := by
    rw [hval]
    unfold expm1
    rfl
  have hlo := exp_92_lower
  have hhi := exp_92_upper
  unfold format_rupees
  rw [if_neg (by rw [hexp]; push_neg; linarith),
    if_pos (by rw [hexp]; linarith)]

/-- Witness for C2: the pipeline identity instantiated at the scenario
output 9.2. -/
theorem damage_pipeline_correct_witness :
    pred_damage_inr 9.2 = expm1 9.2 * 83 :=
  damage_pipeline_correct.1 9.2

/-- C5 counterexample: a negative regressor output gives a negative
damage: `expm1(-1) < 0`, so the damage is not non-negative for every
regressor output. -/
theorem expm1_negative_output : expm1 (-1) < 0 := by
  have h : Real.exp (-1) < Real.exp 0 := Real.exp_lt_exp.mpr (by norm_num)
  rw [Real.exp_zero] at h
  unfold expm1
  linarith

/-- C5 (amended): the damage `expm1(y)` is non-negative for every
non-negative regressor output `y`, and `expm1` is strictly monotonically
increasing everywhere. -/
theorem expm1_nonneg_and_monotone :
    (∀ y : ℝ, 0 ≤ y → 0 ≤ expm1 y) ∧
    ∀ y z : ℝ, y < z → expm1 y < expm1 z := by
  constructor
  · intro y hy
    have h := Real.add_one_le_exp y
    unfold expm1
    linarith
  · intro y z h
    have h2 := Real.exp_lt_exp.mpr h
    unfold expm1
    linarith

/-- Witness for C5 (amended): at y = 0 the damage is non-negative, and
expm1 strictly increases from 0 to 1. -/
theorem expm1_nonneg_and_monotone_witness :
    0 ≤ expm1 0 ∧ expm1 0 < expm1 1 :=
  ⟨expm1_nonneg_and_monotone.1 0 le_rfl,
   expm1_nonneg_and_monotone.2 0 1 (by norm_num)⟩

/-- C6 counterexample: the row builder performs no validation.  With
`impervious_frac = 1.5` (out of the claimed [0,1] range) the row is built
in full, carrying the out-of-range value — no error naming the field is
raised; and with `elevation` absent the row is still built, with a missing
(NaN) entry in place of a rejection. -/
theorem X_input_accepts_invalid :
    X_input badImperviousRaw =
      [("rainfall_mm", some 15), ("rain_7d", some 65), ("rain_30d", some 180),
       ("elevation", some 250), ("dist_to_river", some (3/2)),
       ("population_density", some 1200), ("impervious_frac", some (3/2)),
       ("land_cover_index", some (3/5))] ∧
    X_input noElevationRaw =
      [("rainfall_mm", some 15), ("rain_7d", some 65), ("rain_30d", some 180),
       ("elevation", none), ("dist_to_river", some (3/2)),
       ("population_density", some 1200), ("impervious_frac", some (2/5)),
       ("land_cover_index", some (3/5))] :=
  ⟨rfl, rfl⟩

/-- C6 (amended): building the feature row never fails: for every raw
input the row lists exactly the `NUM_FEATURES` columns, any value supplied
for a schema field (in range or not) is copied through unchanged, and an
absent field yields a missing (`NaN`) entry rather than an error.  The
range and presence constraints are enforced only upstream by the input
widgets. -/
theorem X_input_total_pass_through :
    ∀ (raw : List (String × ℚ)),
      (X_input raw).map Prod.fst = NUM_FEATURES ∧
      ∀ (c : String) (v : ℚ),
        raw.find? (fun p => p.1 == c) = some (c, v) → c ∈ NUM_FEATURES →
        (c, some v) ∈ X_input raw := by
  intro raw
  constructor
  · simp [X_input, Function.comp_def]
  · intro c v hfind hmem
    unfold X_input
    exact List.mem_map.mpr ⟨c, hmem, by simp [hfind]⟩

/-- Witness for C6 (amended): the builder keeps the full schema on the
out-of-range input and passes the value 1.5 through for
`impervious_frac`. -/
theorem X_input_total_pass_through_witness :
    (X_input badImperviousRaw).map Prod.fst = NUM_FEATURES ∧
    ("impervious_frac", some ((3:ℚ)/2)) ∈ X_input badImperviousRaw :=
  ⟨(X_input_total_pass_through badImperviousRaw).1,
   (X_input_total_pass_through badImperviousRaw).2 "impervious_frac" (3/2)
     (by rfl) (by decide)⟩

/-- C7: whatever exception message the model load raises, `main` reports
it as an error panel (the total function returns normally, it does not
crash) and still renders every static reference/safety section. -/
theorem load_failure_keeps_static_content :
    ∀ msg : String,
      Panel.loadError msg ∈ main_panels (Except.error msg) ∧
      ∀ s : Panel, s ∈ staticPanels → s ∈ main_panels (Except.error msg) := by
  intro msg
  constructor
  · simp [main_panels, load_models]
  · intro s hs
    simp only [main_panels, load_models, List.append_assoc, List.mem_append,
      List.mem_cons]
    tauto

/-- Witness for C7: on a lightgbm import failure the error is shown and
the emergency contacts and awareness facts still render. -/
theorem load_failure_keeps_static_content_witness :
    Panel.loadError "No module named lightgbm" ∈
      main_panels (Except.error "No module named lightgbm") ∧
    Panel.emergencyContacts ∈
      main_panels (Except.error "No module named lightgbm") ∧
    Panel.awarenessFacts ∈
      main_panels (Except.error "No module named lightgbm") :=
  ⟨(load_failure_keeps_static_content "No module named lightgbm").1,
   (load_failure_keeps_static_content "No module named lightgbm").2
     Panel.emergencyContacts (by decide),
   (load_failure_keeps_static_content "No module named lightgbm").2
     Panel.awarenessFacts (by decide)⟩

/-- C9: for each of the three tiers the rendered map uses the fixed circle
radius (High → 3000, Medium → 2000, Low → 1000), the matching marker color
(red / orange / green), and the tier's designated risk color
(#dc3545 / #ffc107 / #28a745) for both the popup and the circle. -/
theorem map_style_per_tier :
    create_interactive_map "High" = some ⟨"red", 3000, "#dc3545", "#dc3545"⟩ ∧
    create_interactive_map "Medium" =
      some ⟨"orange", 2000, "#ffc107", "#ffc107"⟩ ∧
    create_interactive_map "Low" = some ⟨"green", 1000, "#28a745", "#28a745"⟩ :=
  ⟨rfl, rfl, rfl⟩

/-- C10 counterexample: for an unrecognized tier string the map renderer
does not fall back to the Low presentation: the `RISK_COLORS[risk_level]`
lookup raises `KeyError`, so no marker or circle is rendered at all. -/
theorem map_unknown_tier_renders_nothing :
    create_interactive_map "Unknown" = none :=
  rfl

/-- Helper for C10: a tier string outside the `RISK_COLORS` keys makes the
dictionary lookup raise `KeyError` (modelled as `none`). -/
theorem riskColorLookup_unknown (level : String) (hH : level ≠ "High")
    (hM : level ≠ "Medium") (hL : level ≠ "Low") :
    riskColorLookup level = none := by
  have e1 : ((("Low", "#28a745") : String × String).1 == level) = false :=
    beq_eq_false_iff_ne.mpr (Ne.symm hL)
  have e2 : ((("Medium", "#ffc107") : String × String).1 == level) = false :=
    beq_eq_false_iff_ne.mpr (Ne.symm hM)
  have e3 : ((("High", "#dc3545") : String × String).1 == level) = false :=
    beq_eq_false_iff_ne.mpr (Ne.symm hH)
  simp [riskColorLookup, RISK_COLORS, List.find?, e1, e2, e3]

/-- C10 (amended): for every tier string other than "High" and "Medium"
the style-selection branch does fall back to marker color green and radius
1000 (unrecognized tiers are never escalated), but only "Low" actually
renders that style: for any other string the renderer fails with a
`KeyError` at the `RISK_COLORS` lookup and produces nothing. -/
theorem map_fallback_never_escalates :
    ∀ level : String, level ≠ "High" → level ≠ "Medium" →
      marker_style level = ("green", 1000) ∧
      ∀ spec : MapSpec, create_interactive_map level = some spec →
        level = "Low" ∧ spec = ⟨"green", 1000, "#28a745", "#28a745"⟩ := by
  intro level hH hM
  constructor
  · unfold marker_style
    rw [if_neg hH, if_neg hM]
  · intro spec hspec
    by_cases hL : level = "Low"
    · subst hL
      refine ⟨rfl, ?_⟩
      have hlow : create_interactive_map "Low" =
          some ⟨"green", 1000, "#28a745", "#28a745"⟩ := rfl
      rw [hlow] at hspec
      exact (Option.some.injEq _ _ ▸ hspec).symm
    · exfalso
      have hnone : create_interactive_map level = none := by
        unfold create_interactive_map
        rw [riskColorLookup_unknown level hH hM hL]
      rw [hnone] at hspec
      exact Option.noConfusion hspec

/-- Witness for C10 (amended): at the recognized fallback tier "Low" the
style is green with radius 1000 and the rendered spec is exactly the Low
presentation. -/
theorem map_fallback_never_escalates_witness :
    marker_style "Low" = ("green", 1000) ∧
    ("Low" = "Low" ∧
      (⟨"green", 1000, "#28a745", "#28a745"⟩ : MapSpec) =
        ⟨"green", 1000, "#28a745", "#28a745"⟩) :=
  ⟨(map_fallback_never_escalates "Low" (by decide) (by decide)).1,
   (map_fallback_never_escalates "Low" (by decide) (by decide)).2
     ⟨"green", 1000, "#28a745", "#28a745"⟩ rfl⟩

end FloodVision
